import Mathlib

/-!
Shallow embedding of `yt_dlp/extractor/afreecatv.py`: the AfreecaTV
video resolver (`AfreecaTVIE`), live resolver (`AfreecaTVLiveIE`),
authenticator (`_perform_login`) and user-listing paginator
(`AfreecaTVUserIE`).

JSON responses are embedded as Lean structures (one `Option` field per
key the code reads); the live channel object is embedded as an
association list because the code reads it with `.get` on string keys.
Host helpers that live outside this file (the HLS manifest expander and
the `unified_timestamp` date parser) are taken as function parameters;
small utility helpers (`url_or_none`, `int_or_none`, `qualities`,
`update_url_query`, `OnDemandPagedList`) are modelled from the spec
where noted.
-/

deriving instance DecidableEq for Except

namespace AfreecaTV

/-- Python truthiness of an optional string: `None` and the empty string
are falsy, everything else is truthy. -/
def truthy (a : Option String) : Option String :=
  match a with
  | some "" => none
  | some s => some s
  | none => none

/-- Python `a or b` for an optional string `a` and a plain default `b`. -/
def pyOr (a : Option String) (b : String) : String :=
  match truthy a with
  | some s => s
  | none => b

/-- Python `a or b` where both sides are optional strings: returns `a`
when truthy, otherwise `b` unchanged (which may itself be falsy). -/
def pyOrO (a b : Option String) : Option String :=
  match truthy a with
  | some s => some s
  | none => b

/-- Modelled from the spec: the host helper `url_or_none` (not under
`src/`), the "resolvable URL" check of the invariant in section 3 of the
spec. Accepts http(s) and scheme-relative URLs, rejects everything
else. -/
def url_or_none (s : String) : Option String :=
  if s.toList.take 7 = "http://".toList ∨ s.toList.take 8 = "https://".toList ∨
      s.toList.take 2 = "//".toList then
    some s
  else
    none

/-- Modelled from the spec: the host helper `int_or_none` with
`scale=1000` (not under `src/`), the "duration scaled from milliseconds"
conversion of section 4.3 of the spec: floor division (Python `//`) of
the raw millisecond value by 1000. -/
def scaleMs (v : Option Int) : Option Int :=
  v.map (fun x => Int.fdiv x 1000)

/-- Decimal digit accumulator: `none` as soon as a non-digit shows up.
-/
def decDigitsAux : List Char → Nat → Option Nat
  | [], acc => some acc
  | c :: cs, acc =>
    if c.isDigit then decDigitsAux cs (acc * 10 + (c.toNat - 48)) else none

/-- A non-empty all-digit character list read as a decimal number. -/
def decDigits : List Char → Option Nat
  | [] => none
  | cs => decDigitsAux cs 0

/-- Modelled from the spec: the host helper `int_or_none` (not under
`src/`) applied to a raw JSON string — Python `int()` on a decimal
string with an optional leading minus sign, `None` for anything else. -/
def parseInt (s : String) : Option Int :=
  match s.toList with
  | '-' :: cs => (decDigits cs).map (fun n => -(n : Int))
  | cs => (decDigits cs).map (fun n => (n : Int))

/-- The character list up to (excluding) the first `?`. -/
def takeUntilQuery : List Char → List Char
  | [] => []
  | c :: cs => if c = '?' then [] else c :: takeUntilQuery cs

/-- The character list after the last `.`, `none` when there is no dot.
-/
def afterLastDot : List Char → Option (List Char)
  | [] => none
  | c :: cs =>
    match afterLastDot cs with
    | some e => some e
    | none => if c = '.' then some cs else none

/-- Modelled from the spec: the host helper `determine_ext` (not under
`src/`), used for "if the file extension indicates an adaptive manifest"
(spec section 4.3): the part of the URL after the last dot, with any
query string stripped first; empty when there is no dot. -/
def determine_ext (url : String) : String :=
  match afterLastDot (takeUntilQuery url.toList) with
  | some e => String.mk e
  | none => ""

/-- One playable stream variant (the `formats` dictionaries built by the
extractors). -/
structure FormatDescriptor where
  url : String
  format_id : String
  ext : Option String := none
  protocol : Option String := none
  quality : Option Int := none
  deriving Repr, DecidableEq

/-- One element of the view-response `files` list, holding the keys the
code reads: `file`, `file_info_key`, `duration` (milliseconds) and
`file_start` (a date string). -/
structure FileElement where
  file : Option String := none
  file_info_key : Option String := none
  duration : Option Int := none
  file_start : Option String := none
  deriving Repr, DecidableEq

/-- The `data` object of the video view-response, holding the keys
`AfreecaTVIE._real_extract` reads. Non-string / non-int JSON values are
filtered to `none` by the `{str}` / `{int}` casts in the code, so each
field is already the filtered value. -/
structure VideoData where
  code : Option Int := none
  flag : Option String := none
  title : Option String := none
  writer_nick : Option String := none
  bj_id : Option String := none
  total_file_duration : Option Int := none
  thumb : Option String := none
  files : List FileElement := []
  deriving Repr, DecidableEq

/-- `common_info`: the five common fields `traverse_obj` extracts once
from the view-response (keys with a `None` value are discarded by
`traverse_obj`, which the `Option` fields model). -/
structure CommonInfo where
  title : Option String := none
  uploader : Option String := none
  uploader_id : Option String := none
  duration : Option Int := none
  thumbnail : Option String := none
  deriving Repr, DecidableEq

def commonInfoOf (data : VideoData) : CommonInfo :=
  { title := data.title
    uploader := data.writer_nick
    uploader_id := data.bj_id
    duration := scaleMs data.total_file_duration
    thumbnail := data.thumb }

/-- A resolved item (the per-entry dictionaries of the video resolver):
the common fields merged with the per-file id, part title, formats,
duration and start timestamp. -/
structure MediaDescriptor where
  id : String
  title : Option String
  uploader : Option String := none
  uploader_id : Option String := none
  duration : Option Int := none
  timestamp : Option Int := none
  thumbnail : Option String := none
  formats : List FormatDescriptor := []
  deriving Repr, DecidableEq

/-- An extraction failure (`ExtractorError`); `login_required` marks
errors raised through `raise_login_required`. -/
structure ExtractorError where
  msg : String
  expected : Bool := true
  login_required : Bool := false
  deriving Repr, DecidableEq

/-- The video resolver's result: a bare media descriptor when the
response yields exactly one entry, otherwise a multi-video playlist
(`playlist_result(entries, video_id, multi_video=True, **common_info)`).
-/
inductive VideoResult where
  | single (desc : MediaDescriptor)
  | playlist (id : String) (common : CommonInfo) (entries : List MediaDescriptor)
  deriving Repr, DecidableEq

/-- The entries a result carries: one for a single descriptor, the part
list for a playlist. -/
def VideoResult.entriesOf : VideoResult → List MediaDescriptor
  | .single d => [d]
  | .playlist _ _ es => es

/-- The filter applied by
`traverse_obj(data, ('files', lambda _, v: url_or_none(v['file'])))`:
keep a file element only when its `file` key is present and a resolvable
URL. -/
def fileOk (fe : FileElement) : Bool :=
  match fe.file with
  | some s => (url_or_none s).isSome
  | none => false

/-- `enumerate(..., start=n)`. -/
def enumFrom (n : Nat) : List α → List (Nat × α)
  | [] => []
  | x :: xs => (n, x) :: enumFrom (n + 1) xs

/-- The formats built for one file entry: expand through the host HLS
helper when the extension is `m3u8`, otherwise a single direct-file
format with `format_id` `http`. -/
def fileFormats (m3u8 : String → Nat → List FormatDescriptor)
    (file_url : String) (file_num : Nat) : List FormatDescriptor :=
  if determine_ext file_url = "m3u8" then
    m3u8 file_url file_num
  else
    [{ url := file_url, format_id := "http" }]

/-- One entry of the video resolver (`entries.append({...})`): common
fields, per-file id (`file_info_key` or `"<video_id>_<n>"`), the part
title, the formats, and the per-file duration / start timestamp, which
override the common values only when present (a `traverse_obj` dict
discards `None` values). -/
def mkEntry (m3u8 : String → Nat → List FormatDescriptor)
    (uts : String → Option Int) (video_id : String) (common : CommonInfo)
    (p : Nat × FileElement) : MediaDescriptor :=
  let file_num := p.1
  let fe := p.2
  let file_url := fe.file.getD ""
  { id := pyOr fe.file_info_key (video_id ++ "_" ++ toString file_num)
    title := some (pyOr common.title "Untitled" ++ " (part " ++ toString file_num ++ ")")
    uploader := common.uploader
    uploader_id := common.uploader_id
    duration := (scaleMs fe.duration).orElse (fun _ => common.duration)
    timestamp := fe.file_start.bind uts
    thumbnail := common.thumbnail
    formats := fileFormats m3u8 file_url file_num }

/-- Modelled from the spec: the host's credential hint
(`_login_hint(method="netrc")`, not under `src/`) appended to the
partial-adult warning; its exact text is host-owned. -/
def loginHintNetrc : String :=
  "Use --username and --password, or --netrc to provide account credentials"

/-- The warning emitted for `PARTIAL_ADULT` content (the trailing login
hint text is produced by the host's `_login_hint` helper). -/
def restrictedWarning : String :=
  "In accordance with local laws and regulations, underage users are " ++
  "restricted from watching adult content. Only content suitable for all " ++
  "ages will be downloaded. " ++ loginHintNetrc

/-- The ordered entry list the video resolver assembles: one entry per
URL-resolvable file element, numbered from 1 in response order. -/
def assembleEntries (m3u8 : String → Nat → List FormatDescriptor)
    (uts : String → Option Int) (video_id : String) (data : VideoData) :
    List MediaDescriptor :=
  (enumFrom 1 (data.files.filter fileOk)).map
    (mkEntry m3u8 uts video_id (commonInfoOf data))

/-- The tail of `AfreecaTVIE._real_extract` once all checks passed:
exactly one entry collapses to a single item with the common title (no
part suffix); any other count becomes a multi-video playlist. -/
def finishExtract (m3u8 : String → Nat → List FormatDescriptor)
    (uts : String → Option Int) (video_id : String) (data : VideoData)
    (warnings : List String) : Except ExtractorError (List String × VideoResult) :=
  let common := commonInfoOf data
  match assembleEntries m3u8 uts video_id data with
  | [e] => .ok (warnings, .single { e with title := common.title })
  | es => .ok (warnings, .playlist video_id common es)

/-- `AfreecaTVIE._real_extract` after the view-response download: error
code checks, content flag checks, then entry assembly over the
URL-resolvable file elements. `m3u8` is the host HLS expander
(`_extract_m3u8_formats`), `uts` the host `unified_timestamp` date
parser. The returned string list holds the warnings emitted on the way.
-/
def realExtract (m3u8 : String → Nat → List FormatDescriptor)
    (uts : String → Option Int) (video_id : String) (data : VideoData) :
    Except ExtractorError (List String × VideoResult) :=
  if data.code = some (-6221) then
    .error { msg := "The VOD does not exist" }
  else if data.code = some (-6205) then
    .error { msg := "This VOD is private" }
  else if data.flag = some "PARTIAL_ADULT" then
    finishExtract m3u8 uts video_id data [restrictedWarning]
  else if data.flag = some "ADULT" then
    .error { msg := "Only users older than 19 are able to watch this video"
             login_required := true }
  else
    finishExtract m3u8 uts video_id data []

/-- The fixed login error-code table `_ERRORS` of `_perform_login`,
reproduced verbatim. -/
def _ERRORS : List (Int × String) :=
  [(-4, "Your account has been suspended due to a violation of our terms and policies."),
   (-5, "https://member.afreecatv.com/app/user_delete_progress.php"),
   (-6, "https://login.afreecatv.com/membership/changeMember.php"),
   (-8, "Hello! AfreecaTV here.\nThe username you have entered belongs to \n an account that requires a legal guardian\x27s consent. \nIf you wish to use our services without restriction, \nplease make sure to go through the necessary verification process."),
   (-9, "https://member.afreecatv.com/app/pop_login_block.php"),
   (-11, "https://login.afreecatv.com/afreeca/second_login.php"),
   (-12, "https://member.afreecatv.com/app/user_security.php"),
   (0, "The username does not exist or you have entered the wrong password."),
   (-1, "The username does not exist or you have entered the wrong password."),
   (-3, "You have entered your username/password incorrectly."),
   (-7, "You cannot use your Global AfreecaTV account to access Korean AfreecaTV."),
   (-10, "Sorry for the inconvenience. \nYour account has been blocked due to an unauthorized access. \nPlease contact our Help Center for assistance."),
   (-32008, "You have failed to log in. Please contact our Help Center.")]

/-- `_ERRORS.get(result, 'You have failed to log in.')` for an optional
parsed result code. -/
def errorFor (result : Option Int) : String :=
  match result with
  | some r => ((_ERRORS.find? (fun p => p.1 = r)).map (fun p => p.2)).getD "You have failed to log in."
  | none => "You have failed to log in."

/-- `AfreecaTVIE._perform_login` after the login POST: parse the
response's `RESULT` field with `int_or_none`, succeed exactly on `1`,
otherwise raise an expected `ExtractorError` with the table message (or
the generic one for unmapped codes). The input is the raw `RESULT`
value of the JSON response, `none` when the key is absent. -/
def performLogin (response_RESULT : Option String) : Except ExtractorError Unit :=
  let result := response_RESULT.bind parseInt
  if result = some 1 then
    .ok ()
  else
    .error { msg := "Unable to login: afreecatv said: " ++ errorFor result }

/-- A JSON object read through `.get` on string keys, embedded as an
association list (first binding wins, missing key is `None`). -/
def jget (o : List (String × String)) (k : String) : Option String :=
  (o.find? (fun p => p.1 = k)).map (fun p => p.2)

/-- `AfreecaTVLiveIE._QUALITIES`, the fixed ascending quality-tier list.
-/
def _QUALITIES : List String := ["sd", "hd", "hd2k", "original"]

/-- Modelled from the spec: the host helper `qualities` (not under
`src/`) — "Quality ranking is the tier's position in the fixed list"
(spec section 4.4). -/
def qualityKey (q : String) : Int :=
  (_QUALITIES.indexOf q : Nat)

/-- Modelled from the spec: the host helper `update_url_query` (not
under `src/`) — "append a FormatDescriptor with the token embedded as a
query parameter" (spec section 4.4). -/
def update_url_query (url k v : String) : String :=
  if url.toList.contains '?' then
    url ++ "&" ++ k ++ "=" ++ v
  else
    url ++ "?" ++ k ++ "=" ++ v

/-- The station-status response
(`https://st.afreecatv.com/api/get_station_status.php`), holding the
keys the code reads. -/
structure StationInfo where
  station_title : Option String := none
  station_name : Option String := none
  broad_start : Option String := none
  deriving Repr, DecidableEq

/-- The live resolver's result dictionary. -/
structure LiveResult where
  id : String
  title : Option String
  uploader : Option String
  uploader_id : String
  timestamp : Option Int
  formats : List FormatDescriptor
  is_live : Bool
  deriving Repr, DecidableEq

/-- The format built for one quality tier, when the tier yields a truthy
access token and the stream-assignment response a truthy `view_url`:
`format_id` is the tier name, the token rides as the `aid` query
parameter, and `quality` is the tier's rank. -/
def liveTierFormat (aidOf viewUrlOf : String → Option String)
    (quality_str : String) : Option FormatDescriptor :=
  match truthy (aidOf quality_str) with
  | none => none
  | some aid =>
    match truthy (viewUrlOf quality_str) with
    | none => none
    | some view_url =>
      some { format_id := quality_str
             url := update_url_query view_url "aid" aid
             ext := some "mp4"
             protocol := some "m3u8"
             quality := some (qualityKey quality_str) }

/-- `AfreecaTVLiveIE._real_extract` after the network downloads:
`broadcaster_id` / `url_bno` come from the URL match, `password` from
`--video-password`, `channel` is the live-API `CHANNEL` object, `aidOf`
gives each tier's access token (`CHANNEL.AID` of the per-quality token
response), `viewUrlOf` each tier's stream-assignment `view_url`, and
`station` the station-status response. The stream-assignment request
itself (base URL from `RMD`, CDN from `CDN`) is abstracted into
`viewUrlOf`. -/
def liveExtract (uts : String → Option Int)
    (broadcaster_id : String) (url_bno : Option String)
    (password : Option String) (channel : List (String × String))
    (aidOf viewUrlOf : String → Option String) (station : StationInfo) :
    Except ExtractorError LiveResult :=
  let broadcaster_id := pyOr (jget channel "BJID") broadcaster_id
  let broadcast_no := pyOrO (jget channel "BNO") url_bno
  let password_protected := jget channel "BPWD"
  match truthy broadcast_no with
  | none =>
    .error { msg := "Unable to extract broadcast number (" ++ broadcaster_id ++ " may not be live)" }
  | some bno =>
    if password_protected = some "Y" ∧ password = none then
      .error { msg := "This livestream is protected by a password, use the --video-password option" }
    else
      .ok { id := bno
            title := pyOrO (jget channel "TITLE") station.station_title
            uploader := pyOrO (jget channel "BJNICK") station.station_name
            uploader_id := broadcaster_id
            timestamp := station.broad_start.bind uts
            formats := _QUALITIES.filterMap (liveTierFormat aidOf viewUrlOf)
            is_live := true }

/-- `AfreecaTVUserIE._PER_PAGE`. -/
def _PER_PAGE : Nat := 60

/-- One item of the user-listing response's `data` list (only
`title_no` is read). -/
structure ListingItem where
  title_no : Nat
  deriving Repr, DecidableEq

/-- A deferred `url_result` redirect handed to the video resolver. -/
structure Redirect where
  url : String
  video_id : Nat
  deriving Repr, DecidableEq

/-- One request to the user-listing endpoint
(`https://bjapi.afreecatv.com/api/<user_id>/vods/<user_type>` with
`page` and `per_page` query parameters). -/
structure PageRequest where
  user_id : String
  user_type : String
  page : Nat
  per_page : Nat
  deriving Repr, DecidableEq

/-- `AfreecaTVUserIE._fetch_page` for a zero-based page index: issues
one listing request for the one-based page and yields a redirect per
item. `api` maps a one-based page number to the response's `data` list.
-/
def fetchPage (api : Nat → List ListingItem) (user_id user_type : String)
    (page : Nat) : PageRequest × List Redirect :=
  let page := page + 1
  ({ user_id := user_id, user_type := user_type, page := page, per_page := _PER_PAGE },
   (api page).map (fun item =>
     { url := "https://vod.afreecatv.com/player/" ++ toString item.title_no ++ "/"
       video_id := item.title_no }))

/-- Modelled from the spec: the host's `OnDemandPagedList` consumption
(not under `src/`) — "repeatedly requests fixed-size pages (page size
constant) from a listing endpoint until a page returns no items" (spec
section 4.5). Returns the yielded items and the log of issued requests;
`fuel` bounds the recursion, `p` is the current zero-based page index. -/
def onDemandConsume (getpage : Nat → PageRequest × List Redirect) :
    Nat → Nat → List Redirect × List PageRequest
  | 0, _ => ([], [])
  | fuel + 1, p =>
    let pr := getpage p
    if pr.2.isEmpty then
      ([], [pr.1])
    else
      let next := onDemandConsume getpage fuel (p + 1)
      (pr.2 ++ next.1, pr.1 :: next.2)

/-- The playlist the user extractor returns
(`playlist_result(entries, user_id, f'<user_id> - <user_type>')`). -/
structure UserPlaylist where
  id : String
  title : String
  entries : List Redirect
  deriving Repr, DecidableEq

/-- `AfreecaTVUserIE._real_extract` after the URL match: the category
slug defaults to `all` when absent, and the lazy paged list is consumed
from page zero. Returns the playlist and the request log. -/
def userExtract (api : Nat → List ListingItem) (fuel : Nat)
    (user_id : String) (slug : Option String) :
    UserPlaylist × List PageRequest :=
  let user_type := pyOr slug "all"
  let c := onDemandConsume (fetchPage api user_id user_type) fuel 0
  ({ id := user_id, title := user_id ++ " - " ++ user_type, entries := c.1 }, c.2)

/-- The warnings the video resolver emits for a given response flag:
exactly the partial-adult warning when the flag is `PARTIAL_ADULT`. -/
def videoWarnings (data : VideoData) : List String :=
  if data.flag = some "PARTIAL_ADULT" then [restrictedWarning] else []

/-! Concrete fixtures used to instantiate the theorems below on closed
inputs. -/

/-- An HLS expander that yields no variants (no direct-file entry below
uses an `m3u8` URL, so it is never consulted there). -/
def m3u8Zero : String → Nat → List FormatDescriptor := fun _ _ => []

/-- A concrete stand-in for the host `unified_timestamp` date parser at
one probe date: `2024-01-01 00:00:00` UTC is epoch second 1704067200. -/
def utsFix : String → Option Int := fun s =>
  if s = "2024-01-01 00:00:00" then some 1704067200 else none

/-- A token endpoint that offers no tier. -/
def noAid : String → Option String := fun _ => none

/-- A token endpoint that grants every tier the token `tok`. -/
def someAid : String → Option String := fun _ => some "tok"

/-- A stream-assignment endpoint answering with a resolvable URL. -/
def someView : String → Option String := fun _ => some "https://cdn.example/stream"

/-- A stream-assignment endpoint answering with a non-empty string that
is not a resolvable URL. -/
def badView : String → Option String := fun _ => some "stream-assign"

/-- A station-status response with every field absent. -/
def stationEmpty : StationInfo := {}

/-- A file element with a resolvable direct-file URL, a millisecond
duration and a date-string start. -/
def feA : FileElement :=
  { file := some "https://a.example/v.mp4"
    duration := some 17999123
    file_start := some "2024-01-01 00:00:00" }

/-- A second file element with a resolvable direct-file URL. -/
def feB : FileElement := { file := some "https://a.example/w.mp4" }

/-- A file element whose `file` value is not a resolvable URL. -/
def feNoUrl : FileElement := { file := some "not a url" }

/-- A view-response with one resolvable file. -/
def oneFileData : VideoData := { title := some "T", files := [feA] }

/-- A view-response with two resolvable files and one dropped file. -/
def twoFileData : VideoData := { title := some "T", files := [feA, feNoUrl, feB] }

/-- A view-response with one resolvable file and no title. -/
def noTitleData : VideoData := { files := [feA] }

/-- A live channel response: broadcast number only. -/
def chanPlain : List (String × String) := [("BNO", "237")]

/-- A live channel response: password protected. -/
def chanPwd : List (String × String) := [("BNO", "237"), ("BPWD", "Y")]

/-- A live channel response that carries title, nick and a start-date
field of its own. -/
def chanWithStart : List (String × String) :=
  [("BNO", "237"), ("TITLE", "lt"), ("BJNICK", "nk"),
   ("BROAD_START", "2024-01-01 00:00:00")]

/-- A listing endpoint with two non-empty pages: page `p ≤ 2` holds one
item, every later page is empty. -/
def apiW : Nat → List ListingItem := fun p =>
  if p ≤ 2 then [{ title_no := p }] else []

/-- A view-response carrying error code -6221. -/
def vodMissingData : VideoData := { code := some (-6221), files := [feA] }

/-- A view-response carrying error code -6205. -/
def vodPrivateData : VideoData := { code := some (-6205), files := [feA] }

/-- A view-response flagged `ADULT`. -/
def adultData : VideoData := { flag := some "ADULT", files := [feA] }

/-- A view-response flagged `PARTIAL_ADULT` with one resolvable file. -/
def restrictedFlagData : VideoData :=
  { flag := some "PARTIAL_ADULT", title := some "T", files := [feA, feB] }

/-! Helper lemmas. -/

theorem enumFrom_length (n : Nat) (xs : List α) :
    (enumFrom n xs).length = xs.length := by
  induction xs generalizing n with
  | nil => rfl
  | cons x xs ih => simp [enumFrom, ih]

theorem enumFrom_getElem? (n k : Nat) (xs : List α) :
    (enumFrom n xs)[k]? = (xs[k]?).map (fun x => (n + k, x)) := by
  induction xs generalizing n k with
  | nil => simp [enumFrom]
  | cons x xs ih =>
    cases k with
    | zero => simp [enumFrom]
    | succ k =>
      have h : n + 1 + k = n + (k + 1) := by omega
      simp [enumFrom, ih (n + 1) k, h]

theorem mem_enumFrom {p : Nat × α} (n : Nat) (xs : List α)
    (h : p ∈ enumFrom n xs) : p.2 ∈ xs := by
  induction xs generalizing n with
  | nil => simp [enumFrom] at h
  | cons x xs ih =>
    simp only [enumFrom, List.mem_cons] at h
    rcases h with rfl | h
    · simp
    · exact List.mem_cons_of_mem _ (ih (n + 1) h)

theorem assembleEntries_length (m3u8 : String → Nat → List FormatDescriptor)
    (uts : String → Option Int) (video_id : String) (data : VideoData) :
    (assembleEntries m3u8 uts video_id data).length =
      (data.files.filter fileOk).length := by
  simp [assembleEntries, enumFrom_length]

theorem assembleEntries_getElem? (m3u8 : String → Nat → List FormatDescriptor)
    (uts : String → Option Int) (video_id : String) (data : VideoData) (k : Nat) :
    (assembleEntries m3u8 uts video_id data)[k]? =
      ((data.files.filter fileOk)[k]?).map
        (fun fe => mkEntry m3u8 uts video_id (commonInfoOf data) (k + 1, fe)) := by
  simp [assembleEntries, enumFrom_getElem?, Nat.add_comm]
  rfl

theorem mem_assembleEntries (m3u8 : String → Nat → List FormatDescriptor)
    (uts : String → Option Int) (video_id : String) (data : VideoData)
    (e : MediaDescriptor) (he : e ∈ assembleEntries m3u8 uts video_id data) :
    ∃ k fe, fe ∈ data.files ∧ fileOk fe = true ∧
      e = mkEntry m3u8 uts video_id (commonInfoOf data) (k, fe) := by
  simp only [assembleEntries, List.mem_map] at he
  obtain ⟨⟨k, fe⟩, hmem, rfl⟩ := he
  have h2 := mem_enumFrom 1 _ hmem
  rw [List.mem_filter] at h2
  exact ⟨k, fe, h2.1, h2.2, rfl⟩

theorem realExtract_pass (m3u8 : String → Nat → List FormatDescriptor)
    (uts : String → Option Int) (video_id : String) (data : VideoData)
    (hc1 : data.code ≠ some (-6221)) (hc2 : data.code ≠ some (-6205))
    (hf : data.flag ≠ some "ADULT") :
    realExtract m3u8 uts video_id data =
      finishExtract m3u8 uts video_id data (videoWarnings data) := by
  by_cases hp : data.flag = some "PARTIAL_ADULT"
  · simp [realExtract, videoWarnings, hc1, hc2, hp]
  · simp [realExtract, videoWarnings, hc1, hc2, hp, hf]

theorem finishExtract_single (m3u8 : String → Nat → List FormatDescriptor)
    (uts : String → Option Int) (video_id : String) (data : VideoData)
    (ws : List String) (e : MediaDescriptor)
    (h : assembleEntries m3u8 uts video_id data = [e]) :
    finishExtract m3u8 uts video_id data ws =
      .ok (ws, .single { e with title := data.title }) := by
  simp [finishExtract, h, commonInfoOf]

theorem finishExtract_multi (m3u8 : String → Nat → List FormatDescriptor)
    (uts : String → Option Int) (video_id : String) (data : VideoData)
    (ws : List String) (x y : MediaDescriptor) (rest : List MediaDescriptor)
    (h : assembleEntries m3u8 uts video_id data = x :: y :: rest) :
    finishExtract m3u8 uts video_id data ws =
      .ok (ws, .playlist video_id (commonInfoOf data) (x :: y :: rest)) := by
  simp [finishExtract, h]

theorem finishExtract_nil (m3u8 : String → Nat → List FormatDescriptor)
    (uts : String → Option Int) (video_id : String) (data : VideoData)
    (ws : List String) (h : assembleEntries m3u8 uts video_id data = []) :
    finishExtract m3u8 uts video_id data ws =
      .ok (ws, .playlist video_id (commonInfoOf data) []) := by
  simp [finishExtract, h]

/-- Any `finishExtract` run succeeds, keeps its warning list, and the
entries of its result agree with the assembled entry list on every field
other than the title (only the single-entry collapse rewrites the
title). -/
theorem finishExtract_ok (m3u8 : String → Nat → List FormatDescriptor)
    (uts : String → Option Int) (video_id : String) (data : VideoData)
    (ws : List String) :
    ∃ r, finishExtract m3u8 uts video_id data ws = .ok (ws, r) ∧
      r.entriesOf.map
          (fun e => (e.id, e.uploader, e.uploader_id, e.duration, e.timestamp,
                     e.thumbnail, e.formats)) =
        (assembleEntries m3u8 uts video_id data).map
          (fun e => (e.id, e.uploader, e.uploader_id, e.duration, e.timestamp,
                     e.thumbnail, e.formats)) := by
  cases hA : assembleEntries m3u8 uts video_id data with
  | nil =>
    exact ⟨.playlist video_id (commonInfoOf data) [],
      finishExtract_nil m3u8 uts video_id data ws hA, by simp [VideoResult.entriesOf]⟩
  | cons x xs =>
    cases xs with
    | nil =>
      refine ⟨.single { x with title := data.title },
        finishExtract_single m3u8 uts video_id data ws x hA, ?_⟩
      simp [VideoResult.entriesOf]
    | cons y rest =>
      exact ⟨.playlist video_id (commonInfoOf data) (x :: y :: rest),
        finishExtract_multi m3u8 uts video_id data ws x y rest hA,
        by simp [VideoResult.entriesOf]⟩

/-- C2: a view-response with error code -6221 makes the video resolver
fail with the expected "does not exist" error, and error code -6205 with
the expected "private" error; the two messages are distinct, and the
failure is raised before any format extraction — the error value does
not depend on the response files or the HLS expander, over which the
statement is universally quantified. -/
theorem C2_error_codes (m3u8 : String → Nat → List FormatDescriptor)
    (uts : String → Option Int) (video_id : String) (data : VideoData) :
    (data.code = some (-6221) →
      realExtract m3u8 uts video_id data =
        .error { msg := "The VOD does not exist", expected := true, login_required := false }) ∧
    (data.code = some (-6205) →
      realExtract m3u8 uts video_id data =
        .error { msg := "This VOD is private", expected := true, login_required := false }) ∧
    ("The VOD does not exist" : String) ≠ "This VOD is private" := by
  refine ⟨fun h => ?_, fun h => ?_, by decide⟩
  · simp [realExtract, h]
  · simp [realExtract, h]

/-- Witness for C2 at a concrete -6221 response. -/
theorem C2_error_codes_witness :
    realExtract m3u8Zero utsFix "121" vodMissingData =
      .error { msg := "The VOD does not exist", expected := true, login_required := false } :=
  (C2_error_codes m3u8Zero utsFix "121" vodMissingData).1 rfl

/-- C4: the authenticator returns without error exactly when the parsed
`RESULT` is 1; on any other parsed result it raises an expected error
whose message is selected from the fixed `_ERRORS` table, and any result
code without a table row gets the generic failure message. -/
theorem C4_login_table (response_RESULT : Option String) :
    (response_RESULT.bind parseInt = some 1 →
      performLogin response_RESULT = .ok ()) ∧
    (response_RESULT.bind parseInt ≠ some 1 →
      performLogin response_RESULT =
        .error { msg := "Unable to login: afreecatv said: " ++
                          errorFor (response_RESULT.bind parseInt)
                 expected := true, login_required := false }) ∧
    (∀ c p, response_RESULT.bind parseInt = some c →
      _ERRORS.find? (fun q => q.1 = c) = some p → errorFor (some c) = p.2) ∧
    (∀ c, response_RESULT.bind parseInt = some c →
      _ERRORS.find? (fun q => q.1 = c) = none →
      errorFor (some c) = "You have failed to log in.") := by
  refine ⟨fun h => ?_, fun h => ?_, fun c p hc hp => ?_, fun c hc hn => ?_⟩
  · simp [performLogin, h]
  · simp [performLogin, h]
  · simp [errorFor, hp]
  · simp [errorFor, hn]

/-- Witness for C4 at the concrete suspended-account response code -4.
-/
theorem C4_login_table_witness :
    performLogin (some "-4") =
      .error { msg := "Unable to login: afreecatv said: " ++
                        errorFor ((some "-4").bind parseInt)
               expected := true, login_required := false } :=
  (C4_login_table (some "-4")).2.1 (by decide)

/-- C1: for a view-response that passes the error-code and adult-flag
checks (those cases are claims C2 and C3), exactly one URL-resolvable
file entry collapses to a single descriptor whose title is the common
response title with no part suffix appended; two or more such entries
yield a playlist of exactly as many parts, in response order — the k-th
part is assembled from the k-th resolvable file and, when the common
title is truthy, titled `<title> (part k)`. -/
theorem C1_video_parts (m3u8 : String → Nat → List FormatDescriptor)
    (uts : String → Option Int) (video_id : String) (data : VideoData)
    (hc1 : data.code ≠ some (-6221)) (hc2 : data.code ≠ some (-6205))
    (hf : data.flag ≠ some "ADULT") :
    (∀ fe, data.files.filter fileOk = [fe] →
      realExtract m3u8 uts video_id data =
        .ok (videoWarnings data,
             .single { mkEntry m3u8 uts video_id (commonInfoOf data) (1, fe) with
                         title := data.title })) ∧
    (2 ≤ (data.files.filter fileOk).length →
      realExtract m3u8 uts video_id data =
        .ok (videoWarnings data,
             .playlist video_id (commonInfoOf data)
               (assembleEntries m3u8 uts video_id data)) ∧
      (assembleEntries m3u8 uts video_id data).length =
        (data.files.filter fileOk).length ∧
      (∀ k fe, (data.files.filter fileOk)[k]? = some fe →
        (assembleEntries m3u8 uts video_id data)[k]? =
          some (mkEntry m3u8 uts video_id (commonInfoOf data) (k + 1, fe))) ∧
      (∀ t, truthy data.title = some t →
        ∀ k fe, (data.files.filter fileOk)[k]? = some fe →
          ((assembleEntries m3u8 uts video_id data)[k]?).map (fun e => e.title) =
            some (some (t ++ " (part " ++ toString (k + 1) ++ ")")))) := by
  have hpass := realExtract_pass m3u8 uts video_id data hc1 hc2 hf
  constructor
  · intro fe hfe
    have hA : assembleEntries m3u8 uts video_id data =
        [mkEntry m3u8 uts video_id (commonInfoOf data) (1, fe)] := by
      simp [assembleEntries, hfe, enumFrom]
    rw [hpass, finishExtract_single m3u8 uts video_id data _ _ hA]
  · intro h2
    have hlen := assembleEntries_length m3u8 uts video_id data
    obtain ⟨x, y, rest, hxy⟩ : ∃ x y rest,
        assembleEntries m3u8 uts video_id data = x :: y :: rest := by
      rcases hAE : assembleEntries m3u8 uts video_id data with _ | ⟨x, xs⟩
      · rw [hAE] at hlen; simp at hlen; omega
      · rcases xs with _ | ⟨y, rest⟩
        · rw [hAE] at hlen; simp at hlen; omega
        · exact ⟨x, y, rest, rfl⟩
    refine ⟨?_, hlen, fun k fe hk => ?_, fun t ht k fe hk => ?_⟩
    · rw [hpass, finishExtract_multi m3u8 uts video_id data _ _ _ _ hxy, hxy]
    · rw [assembleEntries_getElem? m3u8 uts video_id data k, hk]; rfl
    · rw [assembleEntries_getElem? m3u8 uts video_id data k, hk]
      simp [mkEntry, pyOr, ht, commonInfoOf]

/-- Witness for C1 at a concrete three-file response (one file dropped
for lacking a resolvable URL, two parts assembled). -/
theorem C1_video_parts_witness :
    realExtract m3u8Zero utsFix "121" twoFileData =
      .ok (videoWarnings twoFileData,
           .playlist "121" (commonInfoOf twoFileData)
             (assembleEntries m3u8Zero utsFix "121" twoFileData)) :=
  ((C1_video_parts m3u8Zero utsFix "121" twoFileData (by decide) (by decide)
      (by decide)).2 (by decide)).1

/-- C10: when the response has no title, a single-file result keeps
`title = none` — the collapse writes the raw common title over the
entry, so no `Untitled` fallback is applied — while multi-part entry
titles do fall back to `Untitled (part k)`. -/
theorem C10_untitled (m3u8 : String → Nat → List FormatDescriptor)
    (uts : String → Option Int) (video_id : String) (data : VideoData)
    (hc1 : data.code ≠ some (-6221)) (hc2 : data.code ≠ some (-6205))
    (hf : data.flag ≠ some "ADULT") (ht : data.title = none) :
    (∀ fe, data.files.filter fileOk = [fe] →
      realExtract m3u8 uts video_id data =
        .ok (videoWarnings data,
             .single { mkEntry m3u8 uts video_id (commonInfoOf data) (1, fe) with
                         title := none })) ∧
    (∀ k fe, (data.files.filter fileOk)[k]? = some fe →
      ((assembleEntries m3u8 uts video_id data)[k]?).map (fun e => e.title) =
        some (some ("Untitled (part " ++ toString (k + 1) ++ ")"))) := by
  constructor
  · intro fe hfe
    have hA : assembleEntries m3u8 uts video_id data =
        [mkEntry m3u8 uts video_id (commonInfoOf data) (1, fe)] := by
      simp [assembleEntries, hfe, enumFrom]
    rw [realExtract_pass m3u8 uts video_id data hc1 hc2 hf,
        finishExtract_single m3u8 uts video_id data _ _ hA, ht]
  · intro k fe hk
    rw [assembleEntries_getElem? m3u8 uts video_id data k, hk]
    simp [mkEntry, pyOr, truthy, ht, commonInfoOf]

/-- Witness for C10 at a concrete single-file response with no title. -/
theorem C10_untitled_witness :
    realExtract m3u8Zero utsFix "121" noTitleData =
      .ok (videoWarnings noTitleData,
           .single { mkEntry m3u8Zero utsFix "121" (commonInfoOf noTitleData) (1, feA) with
                       title := none }) :=
  (C10_untitled m3u8Zero utsFix "121" noTitleData (by decide) (by decide)
      (by decide) rfl).1 feA (by decide)

/-- C3: with the error-code checks passed, an `ADULT` flag makes the
resolver fail with the expected login-required error (the code raises it
whatever the credential state, so in particular with no credentials
available); a `PARTIAL_ADULT` flag lets resolution proceed and succeed
with exactly the restriction warning emitted, and every entry of the
result is assembled from a file element of the response itself — the
platform ships only non-adult files under this flag and the resolver
adds none of its own, so only non-adult files are included. -/
theorem C3_adult_flags (m3u8 : String → Nat → List FormatDescriptor)
    (uts : String → Option Int) (video_id : String) (data : VideoData)
    (hc1 : data.code ≠ some (-6221)) (hc2 : data.code ≠ some (-6205)) :
    (data.flag = some "ADULT" →
      realExtract m3u8 uts video_id data =
        .error { msg := "Only users older than 19 are able to watch this video",
                 expected := true, login_required := true }) ∧
    (data.flag = some "PARTIAL_ADULT" →
      ∃ r, realExtract m3u8 uts video_id data = .ok ([restrictedWarning], r) ∧
        ∀ e ∈ r.entriesOf, ∃ k fe, fe ∈ data.files ∧ fileOk fe = true ∧
          e.formats = fileFormats m3u8 (fe.file.getD "") k) := by
  constructor
  · intro hA
    have hp : data.flag ≠ some "PARTIAL_ADULT" := by rw [hA]; decide
    simp [realExtract, hc1, hc2, hp, hA]
  · intro hP
    have hf : data.flag ≠ some "ADULT" := by rw [hP]; decide
    have hpass := realExtract_pass m3u8 uts video_id data hc1 hc2 hf
    have hw : videoWarnings data = [restrictedWarning] := by
      simp [videoWarnings, hP]
    obtain ⟨r, hr, hfields⟩ := finishExtract_ok m3u8 uts video_id data (videoWarnings data)
    refine ⟨r, by rw [hpass, hr, hw], fun e he => ?_⟩
    have hmem : (e.id, e.uploader, e.uploader_id, e.duration, e.timestamp,
                 e.thumbnail, e.formats) ∈
        (assembleEntries m3u8 uts video_id data).map
          (fun e => (e.id, e.uploader, e.uploader_id, e.duration, e.timestamp,
                     e.thumbnail, e.formats)) := by
      rw [← hfields]
      exact List.mem_map_of_mem _ he
    rw [List.mem_map] at hmem
    obtain ⟨e', he', heq⟩ := hmem
    obtain ⟨k, fe, hfe, hok, rfl⟩ := mem_assembleEntries m3u8 uts video_id data e' he'
    refine ⟨k, fe, hfe, hok, ?_⟩
    have hfmt := congrArg
      (fun p : String × Option String × Option String × Option Int × Option Int ×
               Option String × List FormatDescriptor => p.2.2.2.2.2.2) heq
    exact hfmt.symm

/-- Witness for C3 at a concrete `ADULT`-flagged response. -/
theorem C3_adult_flags_witness :
    realExtract m3u8Zero utsFix "121" adultData =
      .error { msg := "Only users older than 19 are able to watch this video",
               expected := true, login_required := true } :=
  (C3_adult_flags m3u8Zero utsFix "121" adultData (by decide) (by decide)).1 rfl

/-- A successful video resolution's entries agree with the assembled
entry list on every field except the title. -/
theorem realExtract_ok_entries (m3u8 : String → Nat → List FormatDescriptor)
    (uts : String → Option Int) (video_id : String) (data : VideoData)
    (ws : List String) (r : VideoResult)
    (h : realExtract m3u8 uts video_id data = .ok (ws, r)) :
    r.entriesOf.map
        (fun e => (e.id, e.uploader, e.uploader_id, e.duration, e.timestamp,
                   e.thumbnail, e.formats)) =
      (assembleEntries m3u8 uts video_id data).map
        (fun e => (e.id, e.uploader, e.uploader_id, e.duration, e.timestamp,
                   e.thumbnail, e.formats)) := by
  by_cases hc1 : data.code = some (-6221)
  · simp [realExtract, hc1] at h
  by_cases hc2 : data.code = some (-6205)
  · simp [realExtract, hc1, hc2] at h
  by_cases hf : data.flag = some "ADULT"
  · have hp : data.flag ≠ some "PARTIAL_ADULT" := by rw [hf]; decide
    simp [realExtract, hc1, hc2, hp, hf] at h
  rw [realExtract_pass m3u8 uts video_id data hc1 hc2 hf] at h
  obtain ⟨r', hr', hfields⟩ := finishExtract_ok m3u8 uts video_id data (videoWarnings data)
  rw [hr'] at h
  simp only [Except.ok.injEq, Prod.mk.injEq] at h
  rw [← h.2]
  exact hfields

/-- The live resolver's success shape once the broadcast number is
found and the password gate passes. -/
theorem liveExtract_ok (uts : String → Option Int) (broadcaster_id : String)
    (url_bno password : Option String) (channel : List (String × String))
    (aidOf viewUrlOf : String → Option String) (station : StationInfo) (bno : String)
    (hbno : truthy (pyOrO (jget channel "BNO") url_bno) = some bno)
    (hpwd : ¬(jget channel "BPWD" = some "Y" ∧ password = none)) :
    liveExtract uts broadcaster_id url_bno password channel aidOf viewUrlOf station =
      .ok { id := bno
            title := pyOrO (jget channel "TITLE") station.station_title
            uploader := pyOrO (jget channel "BJNICK") station.station_name
            uploader_id := pyOr (jget channel "BJID") broadcaster_id
            timestamp := station.broad_start.bind uts
            formats := _QUALITIES.filterMap (liveTierFormat aidOf viewUrlOf)
            is_live := true } := by
  simp [liveExtract, hbno, hpwd]

/-- C5 (amended): live resolution with no broadcast number fails with
the expected "may not be live" error; with a broadcast number found and
the password gate passed, zero successful quality probes (every tier
lacks a truthy token or a truthy stream-assignment URL) still succeeds
with an empty format list. The password gate is the amendment: a
password-protected channel with no supplied password fails even though a
broadcast number was found. -/
theorem C5_live_probes (uts : String → Option Int) (broadcaster_id : String)
    (url_bno password : Option String) (channel : List (String × String))
    (aidOf viewUrlOf : String → Option String) (station : StationInfo) :
    (truthy (pyOrO (jget channel "BNO") url_bno) = none →
      liveExtract uts broadcaster_id url_bno password channel aidOf viewUrlOf station =
        .error { msg := "Unable to extract broadcast number (" ++
                          pyOr (jget channel "BJID") broadcaster_id ++ " may not be live)"
                 expected := true, login_required := false }) ∧
    (∀ bno, truthy (pyOrO (jget channel "BNO") url_bno) = some bno →
      ¬(jget channel "BPWD" = some "Y" ∧ password = none) →
      (∀ q ∈ _QUALITIES, truthy (aidOf q) = none ∨ truthy (viewUrlOf q) = none) →
      liveExtract uts broadcaster_id url_bno password channel aidOf viewUrlOf station =
        .ok { id := bno
              title := pyOrO (jget channel "TITLE") station.station_title
              uploader := pyOrO (jget channel "BJNICK") station.station_name
              uploader_id := pyOr (jget channel "BJID") broadcaster_id
              timestamp := station.broad_start.bind uts
              formats := []
              is_live := true }) := by
  constructor
  · intro h
    simp [liveExtract, h]
  · intro bno hbno hpwd hq
    have hfmt : _QUALITIES.filterMap (liveTierFormat aidOf viewUrlOf) = [] := by
      rw [List.filterMap_eq_nil_iff]
      intro q hq2
      rcases hq q hq2 with h1 | h1
      · simp [liveTierFormat, h1]
      · cases haid : truthy (aidOf q) <;> simp [liveTierFormat, haid, h1]
    rw [liveExtract_ok uts broadcaster_id url_bno password channel aidOf viewUrlOf
          station bno hbno hpwd, hfmt]

/-- Witness for C5 at a concrete channel with a broadcast number, no
password protection and no tier yielding a token. -/
theorem C5_live_probes_witness :
    liveExtract utsFix "bj" none none chanPlain noAid noAid stationEmpty =
      .ok { id := "237", title := none, uploader := none, uploader_id := "bj",
            timestamp := none, formats := [], is_live := true } :=
  (C5_live_probes utsFix "bj" none none chanPlain noAid noAid stationEmpty).2 "237"
    (by decide) (by decide) (fun _ _ => Or.inl rfl)

/-- Counterexample to C5 as stated: a password-protected channel whose
response carries a broadcast number, probed with zero successful
quality-token probes, fails with the password error instead of yielding
an empty-format media descriptor. -/
theorem C5_password_counterexample :
    truthy (pyOrO (jget chanPwd "BNO") (some "123")) = some "237" ∧
    truthy (noAid "sd") = none ∧
    liveExtract utsFix "bj" (some "123") none chanPwd noAid noAid stationEmpty =
      .error { msg := "This livestream is protected by a password, use the --video-password option"
               expected := true, login_required := false } :=
  ⟨rfl, rfl, rfl⟩

/-- C7 (amended): the per-entry duration placed on an assembled item is
the file's raw millisecond duration floor-divided by 1000 (falling back
to the response's scaled total duration when the file carries none),
while the per-entry start timestamp is the file's `file_start` date
string fed through the host `unified_timestamp` parser — it is not a
millisecond scaling. Both fields survive unchanged into the entries of
any successful result. -/
theorem C7_entry_fields (m3u8 : String → Nat → List FormatDescriptor)
    (uts : String → Option Int) (video_id : String) (data : VideoData)
    (k : Nat) (fe : FileElement)
    (hk : (data.files.filter fileOk)[k]? = some fe) :
    ((assembleEntries m3u8 uts video_id data)[k]?).map (fun e => e.duration) =
      some ((scaleMs fe.duration).orElse (fun _ => scaleMs data.total_file_duration)) ∧
    ((assembleEntries m3u8 uts video_id data)[k]?).map (fun e => e.timestamp) =
      some (fe.file_start.bind uts) ∧
    (∀ ws r, realExtract m3u8 uts video_id data = .ok (ws, r) →
      r.entriesOf.map (fun e => (e.duration, e.timestamp)) =
        (assembleEntries m3u8 uts video_id data).map
          (fun e => (e.duration, e.timestamp))) := by
  refine ⟨?_, ?_, fun ws r h => ?_⟩
  · rw [assembleEntries_getElem? m3u8 uts video_id data k, hk]; rfl
  · rw [assembleEntries_getElem? m3u8 uts video_id data k, hk]; rfl
  · have hfields := realExtract_ok_entries m3u8 uts video_id data ws r h
    have h2 := congrArg (List.map (fun p : String × Option String × Option String ×
        Option Int × Option Int × Option String × List FormatDescriptor =>
        (p.2.2.2.1, p.2.2.2.2.1))) hfields
    rw [List.map_map, List.map_map] at h2
    exact h2

/-- Witness for C7 at the concrete one-file response. -/
theorem C7_entry_fields_witness :
    ((assembleEntries m3u8Zero utsFix "121" oneFileData)[0]?).map (fun e => e.duration) =
      some ((scaleMs feA.duration).orElse (fun _ => scaleMs oneFileData.total_file_duration)) :=
  (C7_entry_fields m3u8Zero utsFix "121" oneFileData 0 feA (by decide)).1

/-- Counterexample to C7 as stated: the entry built from `feA` carries
the parsed date `2024-01-01 00:00:00` (epoch 1704067200) as its
timestamp, while reading that raw `file_start` value as a millisecond
count and scaling it yields nothing — the timestamp is parsed, not
scaled. -/
theorem C7_timestamp_counterexample :
    ((assembleEntries m3u8Zero utsFix "121" oneFileData)[0]?).map (fun e => e.timestamp) =
      some (some 1704067200) ∧
    scaleMs (parseInt "2024-01-01 00:00:00") = none ∧
    feA.file_start = some "2024-01-01 00:00:00" :=
  ⟨rfl, rfl, rfl⟩

/-- C8 (amended): on a successful live resolution the final title and
uploader take the channel value when truthy and fall back to the
station-status value otherwise, while the start timestamp is parsed from
the station-status `broad_start` alone — for any channel response that
passes the gates, the timestamp is the station value, never a channel
field. -/
theorem C8_live_metadata (uts : String → Option Int) (broadcaster_id : String)
    (url_bno password : Option String) (channel : List (String × String))
    (aidOf viewUrlOf : String → Option String) (station : StationInfo) (bno : String)
    (hbno : truthy (pyOrO (jget channel "BNO") url_bno) = some bno)
    (hpwd : ¬(jget channel "BPWD" = some "Y" ∧ password = none)) :
    (liveExtract uts broadcaster_id url_bno password channel aidOf viewUrlOf station =
      .ok { id := bno
            title := pyOrO (jget channel "TITLE") station.station_title
            uploader := pyOrO (jget channel "BJNICK") station.station_name
            uploader_id := pyOr (jget channel "BJID") broadcaster_id
            timestamp := station.broad_start.bind uts
            formats := _QUALITIES.filterMap (liveTierFormat aidOf viewUrlOf)
            is_live := true }) ∧
    (∀ t, truthy (jget channel "TITLE") = some t →
      pyOrO (jget channel "TITLE") station.station_title = some t) ∧
    (truthy (jget channel "TITLE") = none →
      pyOrO (jget channel "TITLE") station.station_title = station.station_title) ∧
    (∀ u, truthy (jget channel "BJNICK") = some u →
      pyOrO (jget channel "BJNICK") station.station_name = some u) ∧
    (truthy (jget channel "BJNICK") = none →
      pyOrO (jget channel "BJNICK") station.station_name = station.station_name) ∧
    (∀ channel2 bno2,
      truthy (pyOrO (jget channel2 "BNO") url_bno) = some bno2 →
      ¬(jget channel2 "BPWD" = some "Y" ∧ password = none) →
      (liveExtract uts broadcaster_id url_bno password channel2 aidOf viewUrlOf
          station).toOption.map (fun r => r.timestamp) =
        some (station.broad_start.bind uts)) := by
  refine ⟨liveExtract_ok uts broadcaster_id url_bno password channel aidOf viewUrlOf
      station bno hbno hpwd,
    fun t ht => ?_, fun ht => ?_, fun u hu => ?_, fun hu => ?_,
    fun channel2 bno2 hb2 hp2 => ?_⟩
  · simp [pyOrO, ht]
  · simp [pyOrO, ht]
  · simp [pyOrO, hu]
  · simp [pyOrO, hu]
  · rw [liveExtract_ok uts broadcaster_id url_bno password channel2 aidOf viewUrlOf
        station bno2 hb2 hp2]
    rfl

/-- Witness for C8 at a concrete channel response with title and nick
present and an empty station response. -/
theorem C8_live_metadata_witness :
    liveExtract utsFix "bj" none none chanWithStart someAid someView stationEmpty =
      .ok { id := "237", title := some "lt", uploader := some "nk", uploader_id := "bj",
            timestamp := none,
            formats := _QUALITIES.filterMap (liveTierFormat someAid someView),
            is_live := true } :=
  (C8_live_metadata utsFix "bj" none none chanWithStart someAid someView stationEmpty
    "237" (by decide) (by decide)).1

/-- Counterexample to C8 as stated: the channel response carries its own
present start-date field, which parses to epoch 1704067200, yet the
resolved timestamp is `none` because the station-status response has no
`broad_start` — the start timestamp is never taken from the live-channel
response. -/
theorem C8_station_counterexample :
    jget chanWithStart "BROAD_START" = some "2024-01-01 00:00:00" ∧
    utsFix "2024-01-01 00:00:00" = some 1704067200 ∧
    (liveExtract utsFix "bj" none none chanWithStart someAid someView
        stationEmpty).toOption.map (fun r => r.timestamp) = some none :=
  ⟨rfl, rfl, rfl⟩

/-- C6 (amended): every entry a successful video resolution assembles
comes from a response file whose URL passed the resolvable-URL check
(non-resolvable entries are dropped before assembly), and a non-manifest
file yields exactly the one direct-file format carrying that validated
URL (manifest files are expanded by the host HLS helper, whose output is
host-owned); a successful live resolution's formats come only from
quality tiers with both a truthy access token and a truthy
stream-assignment view URL — a tier without a view URL contributes no
format — but the live view URL itself is not re-validated as a
resolvable URL (see the counterexample). -/
theorem C6_resolvable_urls :
    (∀ (m3u8 : String → Nat → List FormatDescriptor) (uts : String → Option Int)
        (video_id : String) (data : VideoData) (ws : List String) (r : VideoResult),
      realExtract m3u8 uts video_id data = .ok (ws, r) →
      ∀ e ∈ r.entriesOf, ∃ k fe, fe ∈ data.files ∧ fileOk fe = true ∧
        e.formats = fileFormats m3u8 (fe.file.getD "") k) ∧
    (∀ (m3u8 : String → Nat → List FormatDescriptor) (uts : String → Option Int)
        (video_id : String) (data : VideoData) (k : Nat) (fe : FileElement),
      (data.files.filter fileOk)[k]? = some fe →
      determine_ext (fe.file.getD "") ≠ "m3u8" →
      ((assembleEntries m3u8 uts video_id data)[k]?).map (fun e => e.formats) =
        some [{ url := fe.file.getD "", format_id := "http" }] ∧
      (url_or_none (fe.file.getD "")).isSome = true) ∧
    (∀ (uts : String → Option Int) (broadcaster_id : String)
        (url_bno password : Option String) (channel : List (String × String))
        (aidOf viewUrlOf : String → Option String) (station : StationInfo)
        (res : LiveResult),
      liveExtract uts broadcaster_id url_bno password channel aidOf viewUrlOf
          station = .ok res →
      ∀ f ∈ res.formats,
        (truthy (aidOf f.format_id)).isSome = true ∧
        (truthy (viewUrlOf f.format_id)).isSome = true) := by
  refine ⟨fun m3u8 uts video_id data ws r h e he => ?_,
    fun m3u8 uts video_id data k fe hk hext => ?_,
    fun uts bid url_bno password channel aidOf viewUrlOf station res h f hf => ?_⟩
  · have hfields := realExtract_ok_entries m3u8 uts video_id data ws r h
    have hmem : (e.id, e.uploader, e.uploader_id, e.duration, e.timestamp,
                 e.thumbnail, e.formats) ∈
        (assembleEntries m3u8 uts video_id data).map
          (fun e => (e.id, e.uploader, e.uploader_id, e.duration, e.timestamp,
                     e.thumbnail, e.formats)) := by
      rw [← hfields]
      exact List.mem_map_of_mem _ he
    rw [List.mem_map] at hmem
    obtain ⟨e', he', heq⟩ := hmem
    obtain ⟨k, fe, hfe, hok, rfl⟩ := mem_assembleEntries m3u8 uts video_id data e' he'
    exact ⟨k, fe, hfe, hok,
      (congrArg (fun p : String × Option String × Option String × Option Int ×
        Option Int × Option String × List FormatDescriptor => p.2.2.2.2.2.2) heq).symm⟩
  · have hok : fileOk fe = true := by
      have hmem : fe ∈ data.files.filter fileOk := by
        have := List.getElem?_eq_some_iff.mp hk
        obtain ⟨hlt, hget⟩ := this
        exact hget ▸ List.getElem_mem hlt
      exact (List.mem_filter.mp hmem).2
    rw [assembleEntries_getElem? m3u8 uts video_id data k, hk]
    refine ⟨?_, ?_⟩
    · simp [mkEntry, fileFormats, hext]
    · cases hfile : fe.file with
      | none => simp [fileOk, hfile] at hok
      | some s => simpa [fileOk, hfile] using hok
  · rcases hbno : truthy (pyOrO (jget channel "BNO") url_bno) with _ | bno
    · simp [liveExtract, hbno] at h
    · by_cases hpwd : jget channel "BPWD" = some "Y" ∧ password = none
      · simp [liveExtract, hbno, hpwd] at h
      · rw [liveExtract_ok uts bid url_bno password channel aidOf viewUrlOf
            station bno hbno hpwd] at h
        injection h with h2
        subst h2
        have hf2 : f ∈ _QUALITIES.filterMap (liveTierFormat aidOf viewUrlOf) := hf
        rw [List.mem_filterMap] at hf2
        obtain ⟨q, hqmem, hsome⟩ := hf2
        rcases haid : truthy (aidOf q) with _ | aid
        · simp [liveTierFormat, haid] at hsome
        · rcases hvu : truthy (viewUrlOf q) with _ | vu
          · simp [liveTierFormat, haid, hvu] at hsome
          · simp only [liveTierFormat, haid, hvu, Option.some.injEq] at hsome
            subst hsome
            exact ⟨by simp [haid], by simp [hvu]⟩

/-- Witness for C6 at the concrete two-file response: the first
assembled file's URL passes the resolvable-URL check. -/
theorem C6_resolvable_urls_witness :
    (url_or_none (feA.file.getD "")).isSome = true :=
  (C6_resolvable_urls.2.1 m3u8Zero utsFix "121" twoFileData 0 feA
    (by decide) (by decide)).2

/-- Counterexample to C6 as stated: a live stream-assignment endpoint
answering with the non-empty, non-URL string `stream-assign` still
contributes formats, and their URLs fail the resolvable-URL check — the
live resolver only tests presence of the view URL, not resolvability. -/
theorem C6_live_url_counterexample :
    (liveExtract utsFix "bj" (some "123") none chanPlain someAid badView
        stationEmpty).toOption.map
      (fun r => r.formats.all (fun f => (url_or_none f.url).isSome)) = some false ∧
    (liveExtract utsFix "bj" (some "123") none chanPlain someAid badView
        stationEmpty).toOption.map (fun r => r.formats.isEmpty) = some false :=
  ⟨rfl, rfl⟩

/-- Two consumptions of the paged list against pointwise-equal page
functions produce the same items and the same request log. -/
theorem onDemand_congr (g1 g2 : Nat → PageRequest × List Redirect)
    (hg : ∀ p, g1 p = g2 p) :
    ∀ fuel p, onDemandConsume g1 fuel p = onDemandConsume g2 fuel p := by
  intro fuel
  induction fuel with
  | zero => intro p; rfl
  | succ fuel ih => intro p; simp only [onDemandConsume, hg p, ih (p + 1)]

/-- Every request in the consumption log is one of the page function's
requests. -/
theorem onDemand_req (g : Nat → PageRequest × List Redirect) :
    ∀ fuel p req, req ∈ (onDemandConsume g fuel p).2 → ∃ q, req = (g q).1 := by
  intro fuel
  induction fuel with
  | zero => intro p req h; simp [onDemandConsume] at h
  | succ fuel ih =>
    intro p req h
    simp only [onDemandConsume] at h
    by_cases hE : (g p).2.isEmpty
    · simp [hE] at h
      exact ⟨p, h⟩
    · simp [hE] at h
      rcases h with rfl | h
      · exact ⟨p, rfl⟩
      · exact ih (p + 1) req h

/-- The consumption log hits exactly the zero-based pages `p..m-1` when
`m` is the first one-based page of `api` that is empty. -/
theorem onDemand_pages (api : Nat → List ListingItem) (u t : String) :
    ∀ fuel p m, p < m → m ≤ p + fuel → (api m).isEmpty = true →
      (∀ j, p < j → j < m → (api j).isEmpty = false) →
      (onDemandConsume (fetchPage api u t) fuel p).2.map (fun r => r.page) =
        List.range' (p + 1) (m - p) := by
  intro fuel
  induction fuel with
  | zero => intro p m h1 h2 _ _; omega
  | succ fuel ih =>
    intro p m h1 h2 hE hN
    by_cases hpm : p + 1 = m
    · have hnil : api (p + 1) = [] := by
        rw [hpm]
        exact List.isEmpty_iff.mp hE
      have hmp : m - p = 1 := by omega
      simp [onDemandConsume, fetchPage, hnil, hmp, List.range']
    · have hlt : p + 1 < m := by omega
      have hne : (api (p + 1)).isEmpty = false := hN (p + 1) (by omega) hlt
      have hrec := ih (p + 1) m hlt (by omega) hE (fun j hj1 hj2 => hN j (by omega) hj2)
      have hmp : m - p = (m - (p + 1)) + 1 := by omega
      cases hapi : api (p + 1) with
      | nil => rw [hapi] at hne; simp at hne
      | cons a as =>
        rw [hmp]
        simp [onDemandConsume, fetchPage, hapi, hrec, List.range']

/-- C9: the listing paginator issues requests for pages 1 up to exactly
the first page that returns zero items (given enough fuel), every
request carries page size 60, the user id and the category slug
(defaulting to `all` when absent), and consuming the produced sequence
again against an unchanged endpoint reissues the same request sequence
and yields the same items. -/
theorem C9_paginator (api : Nat → List ListingItem) (fuel : Nat)
    (user_id : String) (slug : Option String) (m : Nat)
    (hm : 1 ≤ m) (hE : (api m).isEmpty = true)
    (hN : ∀ j, 1 ≤ j → j < m → (api j).isEmpty = false)
    (hfuel : m ≤ fuel) :
    ((userExtract api fuel user_id slug).2.map (fun r => r.page) = List.range' 1 m) ∧
    (∀ req ∈ (userExtract api fuel user_id slug).2,
      req.per_page = 60 ∧ req.user_id = user_id ∧ req.user_type = pyOr slug "all") ∧
    (∀ api2 : Nat → List ListingItem, (∀ p, api2 p = api p) →
      userExtract api2 fuel user_id slug = userExtract api fuel user_id slug) ∧
    (slug = none →
      (userExtract api fuel user_id slug).1.title = user_id ++ " - " ++ "all") := by
  refine ⟨?_, fun req hreq => ?_, fun api2 h2 => ?_, fun hs => ?_⟩
  · have h := onDemand_pages api user_id (pyOr slug "all") fuel 0 m hm (by omega) hE
      (fun j h1 hj => hN j h1 hj)
    simpa [userExtract] using h
  · have hreq2 : req ∈ (onDemandConsume (fetchPage api user_id (pyOr slug "all"))
        fuel 0).2 := hreq
    obtain ⟨q, rfl⟩ := onDemand_req (fetchPage api user_id (pyOr slug "all")) fuel 0
      req hreq2
    exact ⟨rfl, rfl, rfl⟩
  · have hc := onDemand_congr (fetchPage api2 user_id (pyOr slug "all"))
      (fetchPage api user_id (pyOr slug "all"))
      (fun p => by simp [fetchPage, h2 (p + 1)]) fuel 0
    simp [userExtract, hc]
  · simp [userExtract, hs, pyOr, truthy]

/-- Witness for C9 at a concrete endpoint whose first empty page is
page 3. -/
theorem C9_paginator_witness :
    (userExtract apiW 5 "ryu" none).2.map (fun r => r.page) = List.range' 1 3 :=
  (C9_paginator apiW 5 "ryu" none 3 (by decide) (by decide)
    (fun j h1 hj => by interval_cases j <;> rfl) (by decide)).1

end AfreecaTV
